import Mathlib

/-!
Verification development for the San Diego city-budget ETL pipeline
(`pipeline/transform.py`, `pipeline/validate.py`, `api/queries.py`).

The pipeline is embedded shallowly: each DuckDB table is a Lean list of
typed rows, nullable SQL columns are `Option`-valued, `TRY_CAST` is an
`Option`-returning parser, `LEFT JOIN` duplicates left rows per match and
null-pads on a miss, `SUM` ignores nulls (and is null over an all-null
group), and `CASE` / three-valued comparisons follow SQL semantics.
`ORDER BY` clauses are omitted: row order is immaterial to every property
stated here.  Amounts (SQL `DOUBLE`) are modelled as rationals.
-/

namespace SDBudget

/-- Numeric value of a digit list, most significant first (helper for the
`TRY_CAST` parsers). -/
def digitsToNat (cs : List Char) : Nat :=
  cs.foldl (fun n c => 10 * n + (c.toNat - 48)) 0

/-- Parse a non-empty all-digit character list. -/
def parseNatDigits (cs : List Char) : Option Nat :=
  if cs ≠ [] ∧ cs.all Char.isDigit then some (digitsToNat cs) else none

/-- Parse an unsigned decimal numeral, with an optional fractional part
(`"25"`, `"1000.00"`, `".5"`).  Anything else — e.g. `"N/A"` — fails. -/
def parseDecimal (cs : List Char) : Option ℚ :=
  match cs.splitOn '.' with
  | [i] =>
      if i ≠ [] ∧ i.all Char.isDigit then some (digitsToNat i : ℚ) else none
  | [i, f] =>
      if (i ++ f) ≠ [] ∧ (i ++ f).all Char.isDigit then
        some ((digitsToNat i : ℚ) + (digitsToNat f : ℚ) / 10 ^ f.length)
      else none
  | _ => none

/-- Strip leading and trailing blanks (the whitespace tolerance of the
VARCHAR casts). -/
def trimChars (cs : List Char) : List Char :=
  ((cs.dropWhile (fun c => c = ' ')).reverse.dropWhile (fun c => c = ' ')).reverse

/-- `TRY_CAST(v AS DOUBLE)` on a nullable VARCHAR column: `NULL` on a null
input or an unparseable numeral, never zero. -/
def sqlTryCastRat (v : Option String) : Option ℚ :=
  v.bind fun s =>
    match trimChars s.toList with
    | '-' :: rest => (parseDecimal rest).map (fun q => -q)
    | '+' :: rest => parseDecimal rest
    | cs => parseDecimal cs

/-- `TRY_CAST(v AS INTEGER)` on a nullable VARCHAR column. -/
def sqlTryCastInt (v : Option String) : Option Int :=
  v.bind fun s =>
    match trimChars s.toList with
    | '-' :: rest => (parseNatDigits rest).map (fun n => -(n : Int))
    | '+' :: rest => (parseNatDigits rest).map (fun n => (n : Int))
    | cs => (parseNatDigits cs).map (fun n => (n : Int))

/-- The fiscal-year repair from `transform.py`:
`CASE WHEN TRY_CAST(report_fy AS INTEGER) < 100 THEN ... + 2000 ELSE ... END`.
A null code stays null (SQL: `NULL < 100` is `NULL`, so the `ELSE` branch
yields the null cast). -/
def normalizeFY : Option Int → Option Int
  | none => none
  | some c => if c < 100 then some (c + 2000) else some c

/-- The `revenue_or_expense` CASE expression of `transform.py` (lines
115–119 and 148–152), applied to the (nullable) joined `account_type`. -/
def classifyROE (t : Option String) : Option String :=
  match t with
  | some a =>
      if a = "Personnel" ∨ a = "Non-Personnel" then some "Expense"
      else some "Revenue"
  | none => none

/-- SQL `SUM` over a nullable column: nulls are ignored; a group whose
values are all null (or empty) sums to `NULL`. -/
def sumOpt (l : List (Option ℚ)) : Option ℚ :=
  match l.filterMap id with
  | [] => none
  | xs => some xs.sum

/-- SQL `x != 0` used positively (in `HAVING`): true only on a non-null
nonzero value (`NULL != 0` is `NULL`, which does not satisfy `HAVING`). -/
def sqlNe0 : Option ℚ → Bool
  | none => false
  | some x => decide (x ≠ 0)

/-- SQL subtraction on nullable values (`NULL` propagates). -/
def optSub (a b : Option ℚ) : Option ℚ :=
  match a, b with
  | some x, some y => some (x - y)
  | _, _ => none

/-- SQL equality of two nullable join keys: a `NULL` key never matches. -/
def keyEq (x y : Option String) : Bool :=
  match x, y with
  | some a, some b => a = b
  | _, _ => false

/-- `LEFT JOIN` match set for one left row: one row per matching right row,
or a single null-padded row when nothing matches. -/
def lookupMatches {β : Type} (p : β → Bool) (rs : List β) : List (Option β) :=
  match rs.filter p with
  | [] => [none]
  | ms => ms.map some

/-! ## Raw extracts and dimension tables -/

/-- One row of `operating_budget.csv` / `operating_actuals.csv` as read by
`read_csv` (untyped, nullable text; join keys in canonical text form). -/
structure RawOpRow where
  amount : Option String
  report_fy : Option String
  budget_cycle : Option String
  account : Option String
  account_number : Option String
  funds_center_number : Option String
  dept_name : Option String
  fund_type : Option String
  fund_number : Option String
deriving DecidableEq, Repr

/-- One row of `cip_budget_fy.csv` / `cip_actuals_fy.csv`. -/
structure RawCipRow where
  amount : Option String
  report_fy : Option String
  budget_cycle : Option String
  asset_owning_dept : Option String
  project_name : Option String
  project_number : Option String
  project_number_parent : Option String
deriving DecidableEq, Repr

/-- One row of the `ref_accounts` dimension table. -/
structure RefAccount where
  account_number : Option String
  account_type : Option String
  account_class : Option String
  account_group : Option String
deriving DecidableEq, Repr

/-- One row of the `ref_departments` dimension table. -/
structure RefDepartment where
  funds_center_number : Option String
  dept_group : Option String
  dept_division : Option String
deriving DecidableEq, Repr

/-- One row of the `ref_funds` dimension table. -/
structure RefFund where
  fund_number : Option String
  fund_name : Option String
deriving DecidableEq, Repr

/-! ## The enriched `operating` table -/

/-- A row of the `operating` table (also the schema of the exported
Unified Fact parquet, capital rows being null-padded to it). -/
structure FactRow where
  amount : Option ℚ
  fiscal_year : Option Int
  budget_cycle : String
  source : String
  account_type : Option String
  account_class : Option String
  account_group : Option String
  revenue_or_expense : Option String
  account : Option String
  account_number : Option String
  dept_group : Option String
  dept_name : Option String
  dept_division : Option String
  fund_type : Option String
  fund_name : Option String
  fund_number : Option String
deriving DecidableEq, Repr

/-- The budget branch of the `operating` SELECT (transform.py 103–131),
for one raw row and its (possibly missed) dimension matches. -/
def opBudgetFact (b : RawOpRow) (a : Option RefAccount)
    (d : Option RefDepartment) (f : Option RefFund) : FactRow :=
  { amount := sqlTryCastRat b.amount
    fiscal_year := normalizeFY (sqlTryCastInt b.report_fy)
    budget_cycle := b.budget_cycle.getD "adopted"
    source := "budget"
    account_type := a.bind (·.account_type)
    account_class := a.bind (·.account_class)
    account_group := a.bind (·.account_group)
    revenue_or_expense := classifyROE (a.bind (·.account_type))
    account := b.account
    account_number := b.account_number
    dept_group := d.bind (·.dept_group)
    dept_name := b.dept_name
    dept_division := d.bind (·.dept_division)
    fund_type := b.fund_type
    fund_name := f.bind (·.fund_name)
    fund_number := b.fund_number }

/-- The actuals branch of the `operating` SELECT (transform.py 136–164). -/
def opActualFact (ac : RawOpRow) (a : Option RefAccount)
    (d : Option RefDepartment) (f : Option RefFund) : FactRow :=
  { opBudgetFact ac a d f with
    budget_cycle := "actual"
    source := "actual" }

/-- Triple `LEFT JOIN` of one raw operating row against the three
dimension tables (join keys cast to text; all conditions reference only
the left row, so the joins multiply out independently). -/
def joinDims (mk : RawOpRow → Option RefAccount → Option RefDepartment →
    Option RefFund → FactRow) (r : RawOpRow) (accs : List RefAccount)
    (deps : List RefDepartment) (funds : List RefFund) : List FactRow :=
  (lookupMatches (fun a => keyEq r.account_number a.account_number) accs).flatMap
    fun a =>
      (lookupMatches (fun d => keyEq r.funds_center_number d.funds_center_number)
          deps).flatMap fun d =>
        (lookupMatches (fun f => keyEq r.fund_number f.fund_number) funds).map
          fun f => mk r a d f

/-- The budget half of the `operating` table. -/
def buildOperatingBudget (bs : List RawOpRow) (accs : List RefAccount)
    (deps : List RefDepartment) (funds : List RefFund) : List FactRow :=
  bs.flatMap fun b => joinDims opBudgetFact b accs deps funds

/-- The actuals half of the `operating` table. -/
def buildOperatingActuals (as_ : List RawOpRow) (accs : List RefAccount)
    (deps : List RefDepartment) (funds : List RefFund) : List FactRow :=
  as_.flatMap fun ac => joinDims opActualFact ac accs deps funds

/-- The full `operating` table: budget records `UNION ALL` actuals. -/
def buildOperating (bs as_ : List RawOpRow) (accs : List RefAccount)
    (deps : List RefDepartment) (funds : List RefFund) : List FactRow :=
  buildOperatingBudget bs accs deps funds ++
    buildOperatingActuals as_ accs deps funds

/-! ## The `cip` table and the unified export -/

/-- A row of the `cip` table. -/
structure CipRow where
  amount : Option ℚ
  fiscal_year : Option Int
  budget_cycle : String
  source : String
  asset_owning_dept : Option String
  project_name : Option String
  project_number : Option String
deriving DecidableEq, Repr

/-- CIP budget branch (transform.py 194–207). -/
def cipBudgetFact (b : RawCipRow) : CipRow :=
  { amount := sqlTryCastRat b.amount
    fiscal_year := normalizeFY (sqlTryCastInt b.report_fy)
    budget_cycle := b.budget_cycle.getD "adopted"
    source := "budget"
    asset_owning_dept := b.asset_owning_dept
    project_name := b.project_name
    project_number := b.project_number }

/-- CIP actuals branch (transform.py 211–224). -/
def cipActualFact (ac : RawCipRow) : CipRow :=
  { amount := sqlTryCastRat ac.amount
    fiscal_year := normalizeFY (sqlTryCastInt ac.report_fy)
    budget_cycle := "actual"
    source := "actual"
    asset_owning_dept := ac.asset_owning_dept
    project_name := ac.project_name
    project_number := ac.project_number_parent }

/-- The `cip` table.  Unlike the operating branches, both CIP branches
carry `WHERE TRY_CAST(amount AS DOUBLE) IS NOT NULL`. -/
def buildCip (cb ca : List RawCipRow) : List CipRow :=
  (cb.filter (fun b => (sqlTryCastRat b.amount).isSome)).map cipBudgetFact ++
    (ca.filter (fun a => (sqlTryCastRat a.amount).isSome)).map cipActualFact

/-- Null-padding of a capital row to the operating schema in the unified
export (transform.py 39–46). -/
def widenCip (c : CipRow) : FactRow :=
  { amount := c.amount
    fiscal_year := c.fiscal_year
    budget_cycle := c.budget_cycle
    source := c.source
    account_type := none
    account_class := none
    account_group := none
    revenue_or_expense := some "Expense"
    account := none
    account_number := none
    dept_group := none
    dept_name := c.asset_owning_dept
    dept_division := none
    fund_type := none
    fund_name := none
    fund_number := none }

/-- The exported Unified Fact table: `operating UNION ALL` widened `cip`. -/
def unifiedFact (bs as_ : List RawOpRow) (cb ca : List RawCipRow)
    (accs : List RefAccount) (deps : List RefDepartment)
    (funds : List RefFund) : List FactRow :=
  buildOperating bs as_ accs deps funds ++ (buildCip cb ca).map widenCip

/-! ## Aggregations (`_build_aggregations`) -/

/-- The `WHERE` filter of the `sankey_revenue` aggregate
(transform.py 244–247). -/
def sankeyRevenueRows (ops : List FactRow) : List FactRow :=
  ops.filter fun r =>
    decide (r.revenue_or_expense = some "Revenue") &&
      r.account_type.isSome && r.fund_type.isSome &&
      decide (r.source = "budget")

/-- The `WHERE` filter of the `sankey_expense` aggregate
(transform.py 264–267). -/
def sankeyExpenseRows (ops : List FactRow) : List FactRow :=
  ops.filter fun r =>
    decide (r.revenue_or_expense = some "Expense") &&
      r.fund_type.isSome && r.dept_group.isSome &&
      decide (r.source = "budget")

/-- A row of `sankey_revenue.parquet`. -/
structure SankeyRevRow where
  revenue_source : Option String
  fund_type : Option String
  fiscal_year : Option Int
  budget_cycle : String
  amount : Option ℚ
deriving DecidableEq, Repr

/-- A row of `sankey_expense.parquet`. -/
structure SankeyExpRow where
  fund_type : Option String
  dept_group : Option String
  fiscal_year : Option Int
  budget_cycle : String
  amount : Option ℚ
deriving DecidableEq, Repr

/-- Grouping key of both sankey aggregates (SQL `GROUP BY` puts all nulls
of a key column in one group, as `Option` equality does). -/
def sankeyRevKey (r : FactRow) : Option String × Option String × Option Int × String :=
  (r.account_type, r.fund_type, r.fiscal_year, r.budget_cycle)

def sankeyExpKey (r : FactRow) : Option String × Option String × Option Int × String :=
  (r.fund_type, r.dept_group, r.fiscal_year, r.budget_cycle)

/-- The `sankey_revenue` aggregate: group-by-sum over the filtered rows. -/
def sankeyRevenue (ops : List FactRow) : List SankeyRevRow :=
  let rows := sankeyRevenueRows ops
  ((rows.map sankeyRevKey).dedup).map fun k =>
    { revenue_source := k.1
      fund_type := k.2.1
      fiscal_year := k.2.2.1
      budget_cycle := k.2.2.2
      amount := sumOpt ((rows.filter (fun r => sankeyRevKey r = k)).map (·.amount)) }

/-- The `sankey_expense` aggregate: group-by-sum over the filtered rows. -/
def sankeyExpense (ops : List FactRow) : List SankeyExpRow :=
  let rows := sankeyExpenseRows ops
  ((rows.map sankeyExpKey).dedup).map fun k =>
    { fund_type := k.1
      dept_group := k.2.1
      fiscal_year := k.2.2.1
      budget_cycle := k.2.2.2
      amount := sumOpt ((rows.filter (fun r => sankeyExpKey r = k)).map (·.amount)) }

/-- A row of `budget_vs_actuals.parquet` (transform.py 313–328). -/
structure BvaRow where
  dept_name : Option String
  dept_group : Option String
  fiscal_year : Option Int
  account_type : Option String
  budget_amount : Option ℚ
  actual_amount : Option ℚ
deriving DecidableEq, Repr

/-- Grouping key of the `budget_vs_actuals` aggregate. -/
def bvaKey (r : FactRow) :
    Option String × Option String × Option Int × Option String :=
  (r.dept_name, r.dept_group, r.fiscal_year, r.account_type)

/-- The `budget_vs_actuals` aggregate: conditional sums per
(dept, group, year, account type), keeping groups where either sum is
non-null and nonzero (`HAVING (budget_amount != 0 OR actual_amount != 0)`). -/
def budgetVsActualsAgg (ops : List FactRow) : List BvaRow :=
  let rows := ops.filter fun r => r.dept_name.isSome
  (((rows.map bvaKey).dedup).map fun k =>
    let g := rows.filter fun r => bvaKey r = k
    { dept_name := k.1
      dept_group := k.2.1
      fiscal_year := k.2.2.1
      account_type := k.2.2.2
      budget_amount := sumOpt (g.map fun r =>
        if r.source = "budget" ∧ r.budget_cycle = "adopted" then r.amount
        else some 0)
      actual_amount := sumOpt (g.map fun r =>
        if r.source = "actual" then r.amount else some 0) }).filter
    fun b => sqlNe0 b.budget_amount || sqlNe0 b.actual_amount

/-- A row of `dept_budget_trends.parquet` (transform.py 275–290). -/
structure DeptTrendRow where
  dept_group : Option String
  dept_name : Option String
  revenue_or_expense : Option String
  fiscal_year : Option Int
  source : Option String
  budget_cycle : Option String
  amount : Option ℚ
deriving DecidableEq, Repr

/-- A row of `revenue_breakdown.parquet` (transform.py 332–347). -/
structure RevenueBreakdownRow where
  account_type : Option String
  account_class : Option String
  fiscal_year : Option Int
  budget_cycle : Option String
  source : Option String
  amount : Option ℚ
deriving DecidableEq, Repr

/-- A row of `fund_allocation.parquet` (transform.py 294–309). -/
structure FundAllocationRow where
  fund_type : Option String
  revenue_or_expense : Option String
  fiscal_year : Option Int
  account_type : Option String
  budget_cycle : Option String
  source : Option String
  amount : Option ℚ
deriving DecidableEq, Repr

/-! ## Query layer (`api/queries.py`) -/

/-- One filter condition appended by `_where` to its `clauses` list. -/
inductive Clause where
  | fyGe (n : Int)
  | fyLe (n : Int)
  | cycleEq (s : String)
  | fundTypeEq (s : String)
  | deptGroupEq (s : String)
deriving DecidableEq, Repr

/-- The column a clause filters on. -/
def clauseCol : Clause → String
  | .fyGe _ => "fiscal_year"
  | .fyLe _ => "fiscal_year"
  | .cycleEq _ => "budget_cycle"
  | .fundTypeEq _ => "fund_type"
  | .deptGroupEq _ => "dept_group"

/-- Clause contributed by an `is not None` numeric filter parameter. -/
def optClause {α : Type} (v : Option α) (f : α → Clause) : List Clause :=
  match v with
  | some x => [f x]
  | none => []

/-- Clause contributed by a truthy string filter parameter (Python:
non-`None` and non-empty), guarded by the aggregate's `has_*` flag. -/
def guardClause (v : Option String) (flag : Bool)
    (f : String → Clause) : List Clause :=
  match v with
  | some s => if s ≠ "" ∧ flag then [f s] else []
  | none => []

/-- `_where` from `queries.py` (lines 26–52).  A string filter is applied
only when the parameter is truthy and the corresponding `has_*` flag says
the target parquet declares the column; otherwise it is silently
skipped. -/
def whereClauses (fy_min fy_max : Option Int)
    (cycle fund_ty dept_grp : Option String)
    (hasFundType hasDeptGroup hasCycle : Bool) : List Clause :=
  optClause fy_min Clause.fyGe ++ optClause fy_max Clause.fyLe ++
    guardClause cycle hasCycle Clause.cycleEq ++
    guardClause fund_ty hasFundType Clause.fundTypeEq ++
    guardClause dept_grp hasDeptGroup Clause.deptGroupEq

/-- Evaluate a clause list against a `dept_budget_trends` row (the
parquet lacks `fund_type`; the query layer never generates such a clause
for it). -/
def trendMatches (cs : List Clause) (r : DeptTrendRow) : Bool :=
  cs.all fun c =>
    match c with
    | .fyGe n => match r.fiscal_year with | some y => decide (n ≤ y) | none => false
    | .fyLe n => match r.fiscal_year with | some y => decide (y ≤ n) | none => false
    | .cycleEq s => decide (r.budget_cycle = some s)
    | .fundTypeEq _ => false
    | .deptGroupEq s => decide (r.dept_group = some s)

/-- Evaluate a clause list against a `revenue_breakdown` row. -/
def revBdMatches (cs : List Clause) (r : RevenueBreakdownRow) : Bool :=
  cs.all fun c =>
    match c with
    | .fyGe n => match r.fiscal_year with | some y => decide (n ≤ y) | none => false
    | .fyLe n => match r.fiscal_year with | some y => decide (y ≤ n) | none => false
    | .cycleEq s => decide (r.budget_cycle = some s)
    | .fundTypeEq _ => false
    | .deptGroupEq _ => false

/-- Evaluate a clause list against a `fund_allocation` row. -/
def fundAllocMatches (cs : List Clause) (r : FundAllocationRow) : Bool :=
  cs.all fun c =>
    match c with
    | .fyGe n => match r.fiscal_year with | some y => decide (n ≤ y) | none => false
    | .fyLe n => match r.fiscal_year with | some y => decide (y ≤ n) | none => false
    | .cycleEq s => decide (r.budget_cycle = some s)
    | .fundTypeEq s => decide (r.fund_type = some s)
    | .deptGroupEq _ => false

/-- Evaluate a clause list against a `budget_vs_actuals` parquet row. -/
def bvaMatches (cs : List Clause) (r : BvaRow) : Bool :=
  cs.all fun c =>
    match c with
    | .fyGe n => match r.fiscal_year with | some y => decide (n ≤ y) | none => false
    | .fyLe n => match r.fiscal_year with | some y => decide (y ≤ n) | none => false
    | .cycleEq _ => false
    | .fundTypeEq _ => false
    | .deptGroupEq s => decide (r.dept_group = some s)

/-- A row returned by `get_budget_vs_actuals`. -/
structure BvaOut where
  dept_name : Option String
  budget_amount : Option ℚ
  actual_amount : Option ℚ
  variance : Option ℚ
deriving DecidableEq, Repr

/-- `get_budget_vs_actuals` (queries.py 200–220): filter the parquet by
fiscal-year range (flags: no `fund_type`, no `budget_cycle`) and
`account_type IN ('Personnel','Non-Personnel')`; regroup by department;
`HAVING SUM(budget_amount) != 0`; `variance` is the difference of the
regrouped sums.  `ORDER BY` is omitted and `LIMIT` keeps a prefix, which
only shrinks the result and cannot affect the per-row invariants. -/
def getBudgetVsActuals (agg : List BvaRow) (fy_min fy_max : Int)
    (limit : Nat) : List BvaOut :=
  let cs := whereClauses (some fy_min) (some fy_max) none none none
    false true false
  let rows := agg.filter fun r =>
    bvaMatches cs r &&
      (decide (r.account_type = some "Personnel") ||
        decide (r.account_type = some "Non-Personnel"))
  ((((rows.map (·.dept_name)).dedup).filterMap fun dn =>
    let g := rows.filter fun r => r.dept_name = dn
    let sb := sumOpt (g.map (·.budget_amount))
    let sa := sumOpt (g.map (·.actual_amount))
    if sqlNe0 sb then
      some { dept_name := dn, budget_amount := sb, actual_amount := sa,
             variance := optSub sa sb }
    else none) : List BvaOut).take limit

/-- Result of `get_overview`. -/
structure OverviewOut where
  total_expense : ℚ
  total_revenue : ℚ
  general_fund_pct : ℚ
deriving DecidableEq, Repr

/-- Round-half-to-even to an integer, the rounding Python's `round` uses. -/
def roundHalfEven (x : ℚ) : ℤ :=
  if Int.fract x = 1 / 2 then
    (if ⌊x⌋ % 2 = 0 then ⌊x⌋ else ⌊x⌋ + 1)
  else round x

/-- Python `round(x, 1)`. -/
def pyRound1 (x : ℚ) : ℚ := (roundHalfEven (10 * x) : ℚ) / 10

/-- The expense total of `get_overview` (queries.py 111–116): filtered
sum over `dept_budget_trends` with the fixed conditions
`source = 'budget' AND revenue_or_expense = 'Expense'`,
`COALESCE(SUM(amount), 0)`. -/
def overviewExpenseTotal (trends : List DeptTrendRow) (fy_min fy_max : Int)
    (cycle dept_grp : Option String) : ℚ :=
  let cs := whereClauses (some fy_min) (some fy_max) cycle none dept_grp
    false true true
  (sumOpt ((trends.filter fun r =>
    trendMatches cs r && decide (r.source = some "budget") &&
      decide (r.revenue_or_expense = some "Expense")).map (·.amount))).getD 0

/-- The revenue total of `get_overview` (queries.py 118–123). -/
def overviewRevenueTotal (revs : List RevenueBreakdownRow)
    (fy_min fy_max : Int) (cycle : Option String) : ℚ :=
  let cs := whereClauses (some fy_min) (some fy_max) cycle none none
    false false true
  (sumOpt ((revs.filter fun r =>
    revBdMatches cs r && decide (r.source = some "budget")).map
      (·.amount))).getD 0

/-- The General Fund expense total of `get_overview` (queries.py
125–130): `fund_type` pinned to `'General Fund'`. -/
def overviewGFTotal (fa : List FundAllocationRow) (fy_min fy_max : Int)
    (cycle : Option String) : ℚ :=
  let cs := whereClauses (some fy_min) (some fy_max) cycle
    (some "General Fund") none true false true
  (sumOpt ((fa.filter fun r =>
    fundAllocMatches cs r && decide (r.source = some "budget") &&
      decide (r.revenue_or_expense = some "Expense")).map (·.amount))).getD 0

/-- `get_overview` (queries.py 101–138).  The percentage guard mirrors
`(total_gf / total_expense * 100) if total_expense else 0`. -/
def getOverview (trends : List DeptTrendRow)
    (revs : List RevenueBreakdownRow) (fa : List FundAllocationRow)
    (fy_min fy_max : Int) (cycle dept_grp : Option String) : OverviewOut :=
  let te := overviewExpenseTotal trends fy_min fy_max cycle dept_grp
  let tr := overviewRevenueTotal revs fy_min fy_max cycle
  let tg := overviewGFTotal fa fy_min fy_max cycle
  let gf_pct := if te ≠ 0 then tg / te * 100 else 0
  { total_expense := te, total_revenue := tr,
    general_fund_pct := pyRound1 gf_pct }

/-! ## Validator tally (`pipeline/validate.py`) -/

/-- The outcome one `_check` / `_warn` call records. -/
inductive CheckOutcome where
  | pass
  | fail
  | warn
deriving DecidableEq, Repr

/-- The process-wide `passed` / `failed` / `warnings` counters. -/
structure Tally where
  passed : Nat
  failed : Nat
  warnings : Nat
deriving DecidableEq, Repr

/-- One `_check`/`_warn` call: bumps exactly one counter
(validate.py 24–40). -/
def tallyStep (t : Tally) : CheckOutcome → Tally
  | .pass => { t with passed := t.passed + 1 }
  | .fail => { t with failed := t.failed + 1 }
  | .warn => { t with warnings := t.warnings + 1 }

/-- Running the whole battery: every outcome in the sequence is tallied,
independent of the outcomes before it. -/
def runChecks (os : List CheckOutcome) : Tally :=
  os.foldl tallyStep ⟨0, 0, 0⟩

/-- `validate()` returns the number of failures (validate.py 262). -/
def validateFailures (os : List CheckOutcome) : Nat :=
  (runChecks os).failed

/-- `main()`: `sys.exit(1 if failures > 0 else 0)` (validate.py 265–267). -/
def mainExitCode (os : List CheckOutcome) : Nat :=
  if validateFailures os > 0 then 1 else 0

/-! ## Pipeline control flow (`transform.py` top level)

State needed for the error-policy claim: which raw files exist and which
tables are present in the (persistent) DuckDB catalog. -/

/-- The raw extract files a run may find on disk (`none` = missing). -/
structure RawFiles where
  refAccountsFile : Option (List RefAccount)
  refDepartmentsFile : Option (List RefDepartment)
  refFundsFile : Option (List RefFund)
  opBudgetFile : Option (List RawOpRow)
  opActualsFile : Option (List RawOpRow)
deriving Repr

/-- The tables present in the DuckDB database file the run connects to. -/
structure Catalog where
  refAccounts : Option (List RefAccount)
  refDepartments : Option (List RefDepartment)
  refFunds : Option (List RefFund)
deriving Repr

/-- A freshly created database: no tables yet. -/
def emptyCatalog : Catalog := ⟨none, none, none⟩

/-- `_load_reference_tables` (transform.py 59–76): a missing reference CSV
is skipped with a warning, leaving the catalog entry untouched; a present
one is dropped and recreated. -/
def loadReferenceTables (files : RawFiles) (cat : Catalog) : Catalog :=
  { refAccounts :=
      match files.refAccountsFile with
      | some t => some t
      | none => cat.refAccounts
    refDepartments :=
      match files.refDepartmentsFile with
      | some t => some t
      | none => cat.refDepartments
    refFunds :=
      match files.refFundsFile with
      | some t => some t
      | none => cat.refFunds }

/-- `_build_operating_table` (transform.py 79–168): a missing operating
CSV raises `FileNotFoundError`; the `CREATE TABLE operating` query then
`LEFT JOIN`s `ref_accounts`, `ref_departments` and `ref_funds`, which is a
catalog binder error when any of those tables was never created. -/
def buildOperatingStage (files : RawFiles) (cat : Catalog) :
    Except String (List FactRow) :=
  match files.opBudgetFile with
  | none => .error "Required file not found: operating_budget.csv"
  | some bs =>
    match files.opActualsFile with
    | none => .error "Required file not found: operating_actuals.csv"
    | some as_ =>
      match cat.refAccounts, cat.refDepartments, cat.refFunds with
      | some accs, some deps, some funds =>
          .ok (buildOperating bs as_ accs deps funds)
      | _, _, _ => .error "Catalog Error: referenced table does not exist"

/-- The start of `transform()`: load references, then build the operating
table.  The processed-parquet export only happens after this returns
successfully, so an error here aborts the run before any artifact is
published. -/
def runOperatingPipeline (files : RawFiles) (cat : Catalog) :
    Except String (List FactRow) :=
  buildOperatingStage files (loadReferenceTables files cat)

/-! ## Declared column sets of the queried aggregates

The `SELECT` list of each aggregate in `_build_aggregations` fixes the
columns its parquet declares; `_where`'s `has_*` flags must respect them. -/

/-- Columns of `dept_budget_trends.parquet` (transform.py 277–284). -/
def deptTrendCols : List String :=
  ["dept_group", "dept_name", "revenue_or_expense", "fiscal_year",
   "source", "budget_cycle", "amount"]

/-- Columns of `budget_vs_actuals.parquet` (transform.py 315–321). -/
def bvaCols : List String :=
  ["dept_name", "dept_group", "fiscal_year", "account_type",
   "budget_amount", "actual_amount"]

/-- Columns of `cip_by_dept.parquet` (transform.py 418–423). -/
def cipByDeptCols : List String :=
  ["asset_owning_dept", "project_name", "fiscal_year", "source", "amount"]

/-- The non-null `budget_cycle` values the budget-side extracts supply
(the values `COALESCE(b.budget_cycle, 'adopted')` can pass through). -/
def suppliedCycles (bs : List RawOpRow) (cb : List RawCipRow) : List String :=
  bs.filterMap (·.budget_cycle) ++ cb.filterMap (·.budget_cycle)

/-! ## Concrete sample data (witnesses and counterexamples) -/

/-- An operating-budget extract row whose `amount` text cannot be cast. -/
def naOpRow : RawOpRow :=
  { amount := some "N/A", report_fy := some "25", budget_cycle := none,
    account := some "Salaries", account_number := some "4001",
    funds_center_number := some "100", dept_name := some "Police",
    fund_type := some "General Fund", fund_number := some "10000" }

/-- A well-formed operating-budget extract row (no cycle supplied). -/
def sampleOpRow : RawOpRow :=
  { amount := some "100", report_fy := some "22", budget_cycle := none,
    account := some "Salaries", account_number := some "4001",
    funds_center_number := some "100", dept_name := some "Police",
    fund_type := some "General Fund", fund_number := some "10000" }

/-- An operating-budget extract row carrying an unexpected cycle label. -/
def midyearOpRow : RawOpRow :=
  { sampleOpRow with budget_cycle := some "midyear" }

/-- An operating-budget extract row hitting a revenue-classified account. -/
def revOpRow : RawOpRow :=
  { amount := some "300", report_fy := some "25", budget_cycle := none,
    account := some "Property Tax", account_number := some "5001",
    funds_center_number := some "100", dept_name := some "Citywide",
    fund_type := some "General Fund", fund_number := some "10000" }

/-- An operating-budget extract row hitting an expense-classified account. -/
def expOpRow : RawOpRow :=
  { amount := some "200", report_fy := some "25", budget_cycle := none,
    account := some "Salaries", account_number := some "4001",
    funds_center_number := some "100", dept_name := some "Police",
    fund_type := some "General Fund", fund_number := some "10000" }

/-- An accounts-dimension row classifying account 4001 as Personnel. -/
def sampleRefAccount : RefAccount :=
  { account_number := some "4001", account_type := some "Personnel",
    account_class := some "Salaries & Wages", account_group := some "PE" }

/-- An accounts-dimension row classifying account 5001 as a revenue
category. -/
def revRefAccount : RefAccount :=
  { account_number := some "5001", account_type := some "Taxes",
    account_class := some "Property Tax", account_group := some "REV" }

/-- A departments-dimension row for funds center 100. -/
def sampleRefDept : RefDepartment :=
  { funds_center_number := some "100", dept_group := some "Public Safety",
    dept_division := some "Patrol" }

/-- A well-formed CIP budget extract row. -/
def sampleCipRow : RawCipRow :=
  { amount := some "500", report_fy := some "23", budget_cycle := none,
    asset_owning_dept := some "Parks", project_name := some "Trail",
    project_number := some "P1", project_number_parent := some "P0" }

/-- A unified-schema fact row feeding the `budget_vs_actuals` witness. -/
def bvaFact : FactRow :=
  { amount := some 100, fiscal_year := some 2022, budget_cycle := "adopted",
    source := "budget", account_type := some "Personnel",
    account_class := some "Salaries & Wages", account_group := some "PE",
    revenue_or_expense := some "Expense", account := some "Salaries",
    account_number := some "4001", dept_group := some "Public Safety",
    dept_name := some "Police", dept_division := some "Patrol",
    fund_type := some "General Fund", fund_name := some "General Fund",
    fund_number := some "10000" }

/-- A run in which only the accounts dimension CSV is missing. -/
def filesMissingAccounts : RawFiles :=
  { refAccountsFile := none, refDepartmentsFile := some [sampleRefDept],
    refFundsFile := some [], opBudgetFile := some [sampleOpRow],
    opActualsFile := some [] }

/-- A run in which the required operating-budget CSV is missing. -/
def filesMissingOpBudget : RawFiles :=
  { refAccountsFile := some [sampleRefAccount],
    refDepartmentsFile := some [sampleRefDept], refFundsFile := some [],
    opBudgetFile := none, opActualsFile := some [] }

/-! ## Structural lemmas about the operating build -/

theorem lookupMatches_ne_nil {β : Type} (p : β → Bool) (rs : List β) :
    lookupMatches p rs ≠ [] := by
  unfold lookupMatches
  cases h : rs.filter p with
  | nil => simp
  | cons x xs => simp

theorem mem_joinDims {mk : RawOpRow → Option RefAccount →
    Option RefDepartment → Option RefFund → FactRow} {b : RawOpRow}
    {accs : List RefAccount} {deps : List RefDepartment}
    {funds : List RefFund} {r : FactRow}
    (h : r ∈ joinDims mk b accs deps funds) : ∃ a d f, r = mk b a d f := by
  unfold joinDims at h
  simp only [List.mem_flatMap, List.mem_map] at h
  obtain ⟨a, -, d, -, f, -, h⟩ := h
  exact ⟨a, d, f, h.symm⟩

theorem exists_mem_joinDims (mk : RawOpRow → Option RefAccount →
    Option RefDepartment → Option RefFund → FactRow) (b : RawOpRow)
    (accs : List RefAccount) (deps : List RefDepartment)
    (funds : List RefFund) :
    ∃ a d f, mk b a d f ∈ joinDims mk b accs deps funds := by
  obtain ⟨a, ha⟩ := List.exists_mem_of_ne_nil _
    (lookupMatches_ne_nil (fun x => keyEq b.account_number x.account_number) accs)
  obtain ⟨d, hd⟩ := List.exists_mem_of_ne_nil _
    (lookupMatches_ne_nil (fun x => keyEq b.funds_center_number x.funds_center_number) deps)
  obtain ⟨f, hf⟩ := List.exists_mem_of_ne_nil _
    (lookupMatches_ne_nil (fun x => keyEq b.fund_number x.fund_number) funds)
  refine ⟨a, d, f, ?_⟩
  unfold joinDims
  simp only [List.mem_flatMap, List.mem_map]
  exact ⟨a, ha, d, hd, f, hf, rfl⟩

theorem mem_buildOperating {bs as_ : List RawOpRow} {accs : List RefAccount}
    {deps : List RefDepartment} {funds : List RefFund} {r : FactRow}
    (h : r ∈ buildOperating bs as_ accs deps funds) :
    (∃ b ∈ bs, ∃ a d f, r = opBudgetFact b a d f) ∨
      (∃ ac ∈ as_, ∃ a d f, r = opActualFact ac a d f) := by
  unfold buildOperating buildOperatingBudget buildOperatingActuals at h
  rcases List.mem_append.1 h with h | h
  · left
    simp only [List.mem_flatMap] at h
    obtain ⟨b, hb, hj⟩ := h
    exact ⟨b, hb, mem_joinDims hj⟩
  · right
    simp only [List.mem_flatMap] at h
    obtain ⟨b, hb, hj⟩ := h
    exact ⟨b, hb, mem_joinDims hj⟩

theorem roe_eq_classify {bs as_ : List RawOpRow} {accs : List RefAccount}
    {deps : List RefDepartment} {funds : List RefFund} {r : FactRow}
    (h : r ∈ buildOperating bs as_ accs deps funds) :
    r.revenue_or_expense = classifyROE r.account_type := by
  rcases mem_buildOperating h with ⟨b, -, a, d, f, rfl⟩ | ⟨ac, -, a, d, f, rfl⟩ <;>
    rfl

/-! ## Claim theorems -/

/-- Claim C4: for every fiscal-year code `c` carried by any of the four
fact extracts, the normalized fiscal year is `c + 2000` when `c < 100` and
`c` unchanged when `c ≥ 100` (so re-normalizing an already-4-digit value
is a no-op), and the four extract branches (operating budget, operating
actuals, capital budget, capital actuals) all apply this same rule to
their `report_fy` cast. -/
theorem claim_C4_fiscal_year_rule (c : Int) (b ac : RawOpRow)
    (cb ca : RawCipRow) (a : Option RefAccount) (d : Option RefDepartment)
    (f : Option RefFund) :
    normalizeFY (some c) = some (if c < 100 then c + 2000 else c) ∧
    (100 ≤ c → normalizeFY (some c) = some c) ∧
    (opBudgetFact b a d f).fiscal_year = normalizeFY (sqlTryCastInt b.report_fy) ∧
    (opActualFact ac a d f).fiscal_year = normalizeFY (sqlTryCastInt ac.report_fy) ∧
    (cipBudgetFact cb).fiscal_year = normalizeFY (sqlTryCastInt cb.report_fy) ∧
    (cipActualFact ca).fiscal_year = normalizeFY (sqlTryCastInt ca.report_fy) := by
  refine ⟨(apply_ite some (c < 100) (c + 2000) c).symm, ?_, rfl, rfl, rfl, rfl⟩
  intro h
  show (if c < 100 then some (c + 2000) else some c) = some c
  rw [if_neg (by omega)]

/-- Witness for C4 at the concrete already-4-digit code 2023. -/
theorem claim_C4_witness :
    (100 : Int) ≤ 2023 ∧ normalizeFY (some 2023) = some 2023 :=
  ⟨by norm_num,
    (claim_C4_fiscal_year_rule 2023 sampleOpRow sampleOpRow sampleCipRow
      sampleCipRow none none none).2.1 (by norm_num)⟩

/-- Claim C7 evaluation: the claim's missing-dimension half does not hold
on the code.  On a fresh database, skipping a missing `ref_accounts.csv`
leaves the `ref_accounts` table uncreated, so the operating build's
`LEFT JOIN ref_accounts` is a catalog error and the run aborts instead of
continuing with null account attributes; a missing operating-budget CSV is
fatal as claimed. -/
theorem claim_C7_code_evaluation :
    runOperatingPipeline filesMissingAccounts emptyCatalog =
      Except.error "Catalog Error: referenced table does not exist" ∧
    runOperatingPipeline filesMissingOpBudget emptyCatalog =
      Except.error "Required file not found: operating_budget.csv" :=
  ⟨rfl, rfl⟩

/-- Claim C8: the Validator's exit status is non-zero iff at least one
check failed; warnings bump only the warn tally and never change the exit
status; and the tally counts every outcome in the battery — each counter
is a plain count over the whole sequence, so no earlier outcome stops a
later check from being tallied. -/
theorem claim_C8_validator_exit (os : List CheckOutcome) (s : CheckOutcome) :
    (mainExitCode os ≠ 0 ↔ 0 < os.countP (fun o => o = CheckOutcome.fail)) ∧
    (runChecks os).failed = os.countP (fun o => o = CheckOutcome.fail) ∧
    (runChecks os).warnings = os.countP (fun o => o = CheckOutcome.warn) ∧
    (runChecks os).passed = os.countP (fun o => o = CheckOutcome.pass) ∧
    mainExitCode (CheckOutcome.warn :: os) = mainExitCode os ∧
    runChecks (os ++ [s]) = tallyStep (runChecks os) s := by
  have key : ∀ (l : List CheckOutcome) (t : Tally),
      l.foldl tallyStep t =
        ⟨t.passed + l.countP (fun o => o = CheckOutcome.pass),
         t.failed + l.countP (fun o => o = CheckOutcome.fail),
         t.warnings + l.countP (fun o => o = CheckOutcome.warn)⟩ := by
    intro l
    induction l with
    | nil => intro t; simp
    | cons o rest ih =>
        intro t
        rw [List.foldl_cons, ih]
        cases o <;> simp [tallyStep, List.countP_cons] <;> omega
  have hrun : ∀ l : List CheckOutcome, runChecks l =
      ⟨l.countP (fun o => o = CheckOutcome.pass),
       l.countP (fun o => o = CheckOutcome.fail),
       l.countP (fun o => o = CheckOutcome.warn)⟩ := by
    intro l
    rw [runChecks, key]
    simp
  refine ⟨?_, ?_, ?_, ?_, ?_, ?_⟩
  · unfold mainExitCode validateFailures
    rw [hrun]
    split <;> simp_all
  · rw [hrun]
  · rw [hrun]
  · rw [hrun]
  · unfold mainExitCode validateFailures
    rw [hrun, hrun]
    simp [List.countP_cons]
  · rw [hrun, hrun]
    cases s <;> simp [tallyStep, List.countP_append]

/-- Claim C1 fails on the code: an operating-budget row whose `amount`
fails the decimal cast (here the text `N/A`) is NOT excluded — it appears
in the exported Unified Fact table as a row with a null amount, because
only the two capital branches carry the `IS NOT NULL` filter. -/
theorem claim_C1_counterexample :
    unifiedFact [naOpRow] [] [] [] [] [] [] =
      [opBudgetFact naOpRow none none none] ∧
    (opBudgetFact naOpRow none none none).amount = none ∧
    sqlTryCastRat naOpRow.amount = none :=
  ⟨by decide, rfl, rfl⟩

/-- Claim C1 (amended): rows whose `amount` fails the decimal cast are
excluded for the two capital extract families only; every raw operating
row — including one whose cast fails — still contributes a row to the
Unified Fact table whose amount is exactly the cast result (null on
failure, never zero). -/
theorem claim_C1_amended (cb ca : List RawCipRow) (c : CipRow)
    (hc : c ∈ buildCip cb ca) (bs as_ : List RawOpRow)
    (accs : List RefAccount) (deps : List RefDepartment)
    (funds : List RefFund) (b ac : RawOpRow) (hb : b ∈ bs)
    (hac : ac ∈ as_) :
    c.amount.isSome = true ∧
    (∃ r ∈ unifiedFact bs as_ cb ca accs deps funds,
      r.source = "budget" ∧ r.amount = sqlTryCastRat b.amount) ∧
    ∃ r ∈ unifiedFact bs as_ cb ca accs deps funds,
      r.source = "actual" ∧ r.amount = sqlTryCastRat ac.amount := by
  refine ⟨?_, ?_, ?_⟩
  · unfold buildCip at hc
    rcases List.mem_append.1 hc with h | h <;>
    · obtain ⟨x, hx, rfl⟩ := List.mem_map.1 h
      have hs := (List.mem_filter.1 hx).2
      simpa [cipBudgetFact, cipActualFact] using hs
  · obtain ⟨a, d, f, hj⟩ := exists_mem_joinDims opBudgetFact b accs deps funds
    refine ⟨opBudgetFact b a d f, ?_, rfl, rfl⟩
    unfold unifiedFact buildOperating buildOperatingBudget
    exact List.mem_append_left _
      (List.mem_append_left _ (List.mem_flatMap.2 ⟨b, hb, hj⟩))
  · obtain ⟨a, d, f, hj⟩ := exists_mem_joinDims opActualFact ac accs deps funds
    refine ⟨opActualFact ac a d f, ?_, rfl, rfl⟩
    unfold unifiedFact buildOperating buildOperatingActuals
    exact List.mem_append_left _
      (List.mem_append_right _ (List.mem_flatMap.2 ⟨ac, hac, hj⟩))

/-- Witness for the amended C1: the valid CIP row survives with a parsed
amount, and the `N/A` row fed to each of the two operating families still
contributes a (null-amount) row to the unified table. -/
theorem claim_C1_amended_witness :
    (cipBudgetFact sampleCipRow).amount.isSome = true ∧
    (∃ r ∈ unifiedFact [naOpRow] [naOpRow] [sampleCipRow] [] [] [] [],
      r.source = "budget" ∧ r.amount = sqlTryCastRat naOpRow.amount) ∧
    ∃ r ∈ unifiedFact [naOpRow] [naOpRow] [sampleCipRow] [] [] [] [],
      r.source = "actual" ∧ r.amount = sqlTryCastRat naOpRow.amount :=
  claim_C1_amended [sampleCipRow] [] (cipBudgetFact sampleCipRow) (by decide)
    [naOpRow] [naOpRow] [] [] [] naOpRow naOpRow (by decide) (by decide)

/-- Claim C2 fails on the code: a capital row reaches the exported Unified
Fact table with `revenue_or_expense` hard-coded to Expense while its
`account_type` is null, violating both the Expense biconditional and the
null-iff-absent biconditional. -/
theorem claim_C2_counterexample :
    ¬ ∀ r ∈ unifiedFact [] [] [sampleCipRow] [] [] [] [],
        (r.revenue_or_expense = some "Expense" ↔
          (r.account_type = some "Personnel" ∨
            r.account_type = some "Non-Personnel")) ∧
        (r.revenue_or_expense = none ↔ r.account_type = none) := by
  decide

/-- Claim C2 (amended): the exported table splits into operating-derived
and capital-derived rows; the three biconditionals hold for every
operating-derived row, while every capital-derived row instead has
`revenue_or_expense` fixed to Expense with a null `account_type`. -/
theorem claim_C2_amended (bs as_ : List RawOpRow) (cb ca : List RawCipRow)
    (accs : List RefAccount) (deps : List RefDepartment)
    (funds : List RefFund) (r c : FactRow)
    (hr : r ∈ buildOperating bs as_ accs deps funds)
    (hc : c ∈ (buildCip cb ca).map widenCip) :
    unifiedFact bs as_ cb ca accs deps funds =
      buildOperating bs as_ accs deps funds ++ (buildCip cb ca).map widenCip ∧
    (r.revenue_or_expense = some "Expense" ↔
      (r.account_type = some "Personnel" ∨
        r.account_type = some "Non-Personnel")) ∧
    (r.revenue_or_expense = some "Revenue" ↔
      (r.account_type ≠ none ∧ r.account_type ≠ some "Personnel" ∧
        r.account_type ≠ some "Non-Personnel")) ∧
    (r.revenue_or_expense = none ↔ r.account_type = none) ∧
    c.revenue_or_expense = some "Expense" ∧ c.account_type = none := by
  have hcl := roe_eq_classify hr
  have hcap : c.revenue_or_expense = some "Expense" ∧ c.account_type = none := by
    obtain ⟨x, -, rfl⟩ := List.mem_map.1 hc
    exact ⟨rfl, rfl⟩
  have main : (r.revenue_or_expense = some "Expense" ↔
      (r.account_type = some "Personnel" ∨
        r.account_type = some "Non-Personnel")) ∧
      (r.revenue_or_expense = some "Revenue" ↔
        (r.account_type ≠ none ∧ r.account_type ≠ some "Personnel" ∧
          r.account_type ≠ some "Non-Personnel")) ∧
      (r.revenue_or_expense = none ↔ r.account_type = none) := by
    cases hat : r.account_type with
    | none =>
        rw [hat] at hcl
        simp only [classifyROE] at hcl
        simp [hcl, hat]
    | some t =>
        rw [hat] at hcl
        by_cases hP : t = "Personnel" ∨ t = "Non-Personnel"
        · have hroe : r.revenue_or_expense = some "Expense" := by
            simpa [classifyROE, hP] using hcl
          rcases hP with rfl | rfl <;> simp [hroe, hat]
        · have hroe : r.revenue_or_expense = some "Revenue" := by
            simpa [classifyROE, hP] using hcl
          push_neg at hP
          simp [hroe, hat, hP]
  exact ⟨rfl, main.1, main.2.1, main.2.2, hcap.1, hcap.2⟩

/-- Witness for the amended C2 at a concrete build containing one
Personnel-classified operating row and one capital row. -/
theorem claim_C2_amended_witness :
    (widenCip (cipBudgetFact sampleCipRow)).revenue_or_expense =
      some "Expense" ∧
    (widenCip (cipBudgetFact sampleCipRow)).account_type = none ∧
    ((opBudgetFact expOpRow (some sampleRefAccount) (some sampleRefDept)
        none).revenue_or_expense = some "Expense" ↔
      ((opBudgetFact expOpRow (some sampleRefAccount) (some sampleRefDept)
          none).account_type = some "Personnel" ∨
        (opBudgetFact expOpRow (some sampleRefAccount) (some sampleRefDept)
          none).account_type = some "Non-Personnel")) := by
  have h := claim_C2_amended [expOpRow] [] [sampleCipRow] []
    [sampleRefAccount] [sampleRefDept] []
    (opBudgetFact expOpRow (some sampleRefAccount) (some sampleRefDept) none)
    (widenCip (cipBudgetFact sampleCipRow)) (by decide) (by decide)
  exact ⟨h.2.2.2.2.1, h.2.2.2.2.2, h.2.1⟩

/-- Claim C6 fails on the code: `COALESCE(b.budget_cycle, 'adopted')`
passes any supplied cycle label through, so a budget row whose extract
carries `budget_cycle = 'midyear'` reaches the Unified Fact table with
`source = 'budget'` and a cycle outside adopted/proposed. -/
theorem claim_C6_counterexample :
    ¬ ∀ r ∈ unifiedFact [midyearOpRow] [] [] [] [] [] [],
        (r.source = "budget" →
          r.budget_cycle = "adopted" ∨ r.budget_cycle = "proposed") := by
  decide

/-- Claim C6 (amended): `source = actual` forces `budget_cycle = actual`;
`source = budget` yields `adopted` as default when the extract omits the
cycle, and otherwise passes the extract's own cycle value through — so
budget rows stay inside adopted/proposed exactly when every supplied
cycle value lies in that set. -/
theorem claim_C6_amended (bs as_ : List RawOpRow) (cb ca : List RawCipRow)
    (accs : List RefAccount) (deps : List RefDepartment)
    (funds : List RefFund) (r : FactRow)
    (hr : r ∈ unifiedFact bs as_ cb ca accs deps funds) :
    (r.source = "actual" → r.budget_cycle = "actual") ∧
    (r.source = "budget" →
      r.budget_cycle = "adopted" ∨ r.budget_cycle ∈ suppliedCycles bs cb) ∧
    ((∀ s ∈ suppliedCycles bs cb, s = "adopted" ∨ s = "proposed") →
      r.source = "budget" →
      r.budget_cycle = "adopted" ∨ r.budget_cycle = "proposed") := by
  suffices h : (r.source = "actual" → r.budget_cycle = "actual") ∧
      (r.source = "budget" →
        r.budget_cycle = "adopted" ∨ r.budget_cycle ∈ suppliedCycles bs cb) by
    refine ⟨h.1, h.2, fun hall hb => ?_⟩
    rcases h.2 hb with hd | hmem
    · exact Or.inl hd
    · exact hall _ hmem
  rcases List.mem_append.1 hr with h | h
  · rcases mem_buildOperating h with ⟨b, hb, a, d, f, rfl⟩ |
      ⟨ac, hac, a, d, f, rfl⟩
    · refine ⟨fun hs => absurd hs (by decide : ¬ ("budget" : String) = "actual"),
        fun _ => ?_⟩
      cases hbc : b.budget_cycle with
      | none =>
          left
          simp [opBudgetFact, hbc]
      | some s =>
          right
          have : (opBudgetFact b a d f).budget_cycle = s := by
            simp [opBudgetFact, hbc]
          rw [this]
          exact List.mem_append_left _ (List.mem_filterMap.2 ⟨b, hb, hbc⟩)
    · exact ⟨fun _ => rfl,
        fun hs => absurd hs (by decide : ¬ ("actual" : String) = "budget")⟩
  · obtain ⟨x, hx, rfl⟩ := List.mem_map.1 h
    unfold buildCip at hx
    rcases List.mem_append.1 hx with hx | hx
    · obtain ⟨y, hy, rfl⟩ := List.mem_map.1 hx
      have hy' := (List.mem_filter.1 hy).1
      refine ⟨fun hs => absurd hs (by decide : ¬ ("budget" : String) = "actual"),
        fun _ => ?_⟩
      cases hbc : y.budget_cycle with
      | none =>
          left
          simp [widenCip, cipBudgetFact, hbc]
      | some s =>
          right
          have : (widenCip (cipBudgetFact y)).budget_cycle = s := by
            simp [widenCip, cipBudgetFact, hbc]
          rw [this]
          exact List.mem_append_right _ (List.mem_filterMap.2 ⟨y, hy', hbc⟩)
    · obtain ⟨y, hy, rfl⟩ := List.mem_map.1 hx
      exact ⟨fun _ => rfl,
        fun hs => absurd hs (by decide : ¬ ("actual" : String) = "budget")⟩

/-- Witness for the amended C6 at a concrete build whose only supplied
cycle set is empty, so the budget row falls back to `adopted`. -/
theorem claim_C6_amended_witness :
    (opBudgetFact sampleOpRow none none none).budget_cycle = "adopted" ∨
    (opBudgetFact sampleOpRow none none none).budget_cycle = "proposed" :=
  (claim_C6_amended [sampleOpRow] [] [] [] [] [] []
    (opBudgetFact sampleOpRow none none none) (by decide)).2.2
    (by decide) rfl

/-- Claim C3: in the result of `get_budget_vs_actuals` (built over the
`budget_vs_actuals` aggregate of the operating table), every row has a
non-null nonzero `budget_amount` — the `HAVING SUM(budget_amount) != 0`
filter suppresses zero-budget rows — and its `variance` equals
`actual_amount - budget_amount`. -/
theorem claim_C3_budget_vs_actuals (ops : List FactRow) (fy1 fy2 : Int)
    (lim : Nat) (o : BvaOut)
    (ho : o ∈ getBudgetVsActuals (budgetVsActualsAgg ops) fy1 fy2 lim) :
    sqlNe0 o.budget_amount = true ∧
    o.variance = optSub o.actual_amount o.budget_amount := by
  simp only [getBudgetVsActuals] at ho
  have ho' := List.mem_of_mem_take ho
  obtain ⟨dn, -, hf⟩ := List.mem_filterMap.1 ho'
  split at hf
  · rename_i hcond
    injection hf with h2
    subst h2
    exact ⟨hcond, rfl⟩
  · exact absurd hf (by simp)

set_option maxRecDepth 10000 in
/-- Witness for C3 on a one-row operating table whose adopted-budget sum
is 100 and actuals sum is 0. -/
theorem claim_C3_witness :
    sqlNe0 (BvaOut.budget_amount ⟨some "Police", some 100, some 0, some (-100)⟩) =
      true ∧
    BvaOut.variance ⟨some "Police", some 100, some 0, some (-100)⟩ =
      optSub (BvaOut.actual_amount ⟨some "Police", some 100, some 0, some (-100)⟩)
        (BvaOut.budget_amount ⟨some "Police", some 100, some 0, some (-100)⟩) :=
  claim_C3_budget_vs_actuals [bvaFact] 2020 2023 15
    ⟨some "Police", some 100, some 0, some (-100)⟩
    (of_decide_eq_true (by with_unfolding_all rfl))

/-- A `classifyROE` result of Revenue pins the account type outside the
two expense classes. -/
theorem classify_revenue {t : Option String}
    (h : classifyROE t = some "Revenue") :
    t ≠ some "Personnel" ∧ t ≠ some "Non-Personnel" := by
  cases t with
  | none => simp [classifyROE] at h
  | some a =>
      by_cases hP : a = "Personnel" ∨ a = "Non-Personnel"
      · simp [classifyROE, hP] at h
      · push_neg at hP
        simp [hP]

theorem mem_sankeyRevenueRows {ops : List FactRow} {r : FactRow}
    (h : r ∈ sankeyRevenueRows ops) :
    r ∈ ops ∧ r.revenue_or_expense = some "Revenue" ∧ r.source = "budget" := by
  have h' := List.mem_filter.1 h
  have hp := h'.2
  simp only [Bool.and_eq_true, decide_eq_true_eq] at hp
  exact ⟨h'.1, hp.1.1.1, hp.2⟩

theorem mem_sankeyExpenseRows {ops : List FactRow} {r : FactRow}
    (h : r ∈ sankeyExpenseRows ops) :
    r ∈ ops ∧ r.revenue_or_expense = some "Expense" ∧ r.source = "budget" := by
  have h' := List.mem_filter.1 h
  have hp := h'.2
  simp only [Bool.and_eq_true, decide_eq_true_eq] at hp
  exact ⟨h'.1, hp.1.1.1, hp.2⟩

theorem sankeyRevenue_attested {ops : List FactRow} {s : SankeyRevRow}
    (hs : s ∈ sankeyRevenue ops) :
    ∃ r ∈ sankeyRevenueRows ops, r.account_type = s.revenue_source := by
  simp only [sankeyRevenue] at hs
  obtain ⟨k, hk, rfl⟩ := List.mem_map.1 hs
  obtain ⟨r, hr, hkey⟩ := List.mem_map.1 (List.mem_dedup.1 hk)
  refine ⟨r, hr, ?_⟩
  rw [← hkey]
  rfl

theorem sankeyExpense_attested {ops : List FactRow} {e : SankeyExpRow}
    (he : e ∈ sankeyExpense ops) :
    ∃ r ∈ sankeyExpenseRows ops, r.dept_group = e.dept_group := by
  simp only [sankeyExpense] at he
  obtain ⟨k, hk, rfl⟩ := List.mem_map.1 he
  obtain ⟨r, hr, hkey⟩ := List.mem_map.1 (List.mem_dedup.1 hk)
  refine ⟨r, hr, ?_⟩
  rw [← hkey]
  rfl

/-- Claim C5: both flow aggregates draw only on `source = 'budget'` rows
of the operating table; `sankey_revenue` carries no Personnel or
Non-Personnel `revenue_source`; and `sankey_expense` draws only on
expense-classified rows, so each of its `dept_group` values is attested
by an expense-classified operating row (it cannot be a revenue-only
label). -/
theorem claim_C5_flow_separation (bs as_ : List RawOpRow)
    (accs : List RefAccount) (deps : List RefDepartment)
    (funds : List RefFund) (s : SankeyRevRow) (e : SankeyExpRow)
    (r r2 : FactRow)
    (hs : s ∈ sankeyRevenue (buildOperating bs as_ accs deps funds))
    (he : e ∈ sankeyExpense (buildOperating bs as_ accs deps funds))
    (hr1 : r ∈ sankeyRevenueRows (buildOperating bs as_ accs deps funds))
    (hr2 : r2 ∈ sankeyExpenseRows (buildOperating bs as_ accs deps funds)) :
    (s.revenue_source ≠ some "Personnel" ∧
      s.revenue_source ≠ some "Non-Personnel") ∧
    r.source = "budget" ∧
    r2.source = "budget" ∧ r2.revenue_or_expense = some "Expense" ∧
    (∃ x ∈ buildOperating bs as_ accs deps funds,
      x.revenue_or_expense = some "Expense" ∧ x.dept_group = e.dept_group) := by
  obtain ⟨rv, hrv, hat⟩ := sankeyRevenue_attested hs
  have h1 := mem_sankeyRevenueRows hrv
  have hrev : classifyROE rv.account_type = some "Revenue" := by
    rw [← roe_eq_classify h1.1]
    exact h1.2.1
  have hne := classify_revenue hrev
  refine ⟨⟨?_, ?_⟩, (mem_sankeyRevenueRows hr1).2.2, ?_, ?_, ?_⟩
  · rw [← hat]
    exact hne.1
  · rw [← hat]
    exact hne.2
  · exact (mem_sankeyExpenseRows hr2).2.2
  · exact (mem_sankeyExpenseRows hr2).2.1
  · obtain ⟨rx, hrx, hdg⟩ := sankeyExpense_attested he
    have h2 := mem_sankeyExpenseRows hrx
    exact ⟨rx, h2.1, h2.2.1, hdg⟩

set_option maxRecDepth 10000 in
/-- Witness for C5 on a two-row budget extract: one revenue-classified
row (Taxes) and one Personnel expense row. -/
theorem claim_C5_witness :
    ((SankeyRevRow.revenue_source
        ⟨some "Taxes", some "General Fund", some 2025, "adopted", some 300⟩ ≠
          some "Personnel") ∧
      (SankeyRevRow.revenue_source
        ⟨some "Taxes", some "General Fund", some 2025, "adopted", some 300⟩ ≠
          some "Non-Personnel")) ∧
    (opBudgetFact revOpRow (some revRefAccount) (some sampleRefDept)
        none).source = "budget" ∧
    (opBudgetFact expOpRow (some sampleRefAccount) (some sampleRefDept)
        none).source = "budget" ∧
    (opBudgetFact expOpRow (some sampleRefAccount) (some sampleRefDept)
        none).revenue_or_expense = some "Expense" ∧
    (∃ x ∈ buildOperating [revOpRow, expOpRow] []
        [revRefAccount, sampleRefAccount] [sampleRefDept] [],
      x.revenue_or_expense = some "Expense" ∧
        x.dept_group = SankeyExpRow.dept_group
          ⟨some "General Fund", some "Public Safety", some 2025, "adopted",
            some 200⟩) :=
  claim_C5_flow_separation [revOpRow, expOpRow] []
    [revRefAccount, sampleRefAccount] [sampleRefDept] []
    ⟨some "Taxes", some "General Fund", some 2025, "adopted", some 300⟩
    ⟨some "General Fund", some "Public Safety", some 2025, "adopted", some 200⟩
    (opBudgetFact revOpRow (some revRefAccount) (some sampleRefDept) none)
    (opBudgetFact expOpRow (some sampleRefAccount) (some sampleRefDept) none)
    (of_decide_eq_true (by with_unfolding_all rfl))
    (of_decide_eq_true (by with_unfolding_all rfl))
    (by decide) (by decide)

theorem mem_optClause {α : Type} {c : Clause} {v : Option α}
    {f : α → Clause} : c ∈ optClause v f ↔ ∃ x, v = some x ∧ c = f x := by
  cases v <;> simp [optClause]

theorem mem_guardClause {c : Clause} {v : Option String} {flag : Bool}
    {f : String → Clause} :
    c ∈ guardClause v flag f ↔
      ∃ s, v = some s ∧ s ≠ "" ∧ flag = true ∧ c = f s := by
  cases v with
  | none => simp [guardClause]
  | some s =>
      simp only [guardClause]
      split_ifs with h
      · simp [h.1, h.2]
      · simp only [List.not_mem_nil, false_iff]
        rintro ⟨t, ht, hne, hfl, -⟩
        injection ht with ht
        subst ht
        exact h ⟨hne, hfl⟩

theorem mem_whereClauses {c : Clause} {fy1 fy2 : Option Int}
    {cy ft dg : Option String} {h1 h2 h3 : Bool} :
    c ∈ whereClauses fy1 fy2 cy ft dg h1 h2 h3 ↔
      ((∃ n, fy1 = some n ∧ c = Clause.fyGe n) ∨
       (∃ n, fy2 = some n ∧ c = Clause.fyLe n) ∨
       (∃ t, cy = some t ∧ t ≠ "" ∧ h3 = true ∧ c = Clause.cycleEq t) ∨
       (∃ t, ft = some t ∧ t ≠ "" ∧ h1 = true ∧ c = Clause.fundTypeEq t) ∨
       (∃ t, dg = some t ∧ t ≠ "" ∧ h2 = true ∧ c = Clause.deptGroupEq t)) := by
  unfold whereClauses
  simp only [List.mem_append, mem_optClause, mem_guardClause, or_assoc]

/-- Claim C9: `_where` skips any filter whose `has_*` flag says the target
aggregate lacks the column — the generated clause list contains no clause
on that column — while a truthy filter on a declared column is applied;
and the clause lists generated for the `dept_budget_trends`,
`budget_vs_actuals` and `cip_by_dept` queries mention only columns those
aggregates declare, so no generated query can reference a missing
column. -/
theorem claim_C9_where_skips (fy1 fy2 : Option Int) (cy ft dg : Option String)
    (b1 b2 b3 : Bool) (s : String) (hs : s ≠ "") :
    ((whereClauses fy1 fy2 cy ft dg b1 b2 false).all fun c =>
      decide (clauseCol c ≠ "budget_cycle")) = true ∧
    ((whereClauses fy1 fy2 cy ft dg false b2 b3).all fun c =>
      decide (clauseCol c ≠ "fund_type")) = true ∧
    ((whereClauses fy1 fy2 cy ft dg b1 false b3).all fun c =>
      decide (clauseCol c ≠ "dept_group")) = true ∧
    Clause.cycleEq s ∈ whereClauses fy1 fy2 (some s) ft dg b1 b2 true ∧
    Clause.fundTypeEq s ∈ whereClauses fy1 fy2 cy (some s) dg true b2 b3 ∧
    Clause.deptGroupEq s ∈ whereClauses fy1 fy2 cy ft (some s) b1 true b3 ∧
    (∀ c ∈ whereClauses fy1 fy2 cy none dg false true true,
      clauseCol c ∈ deptTrendCols) ∧
    (∀ c ∈ whereClauses fy1 fy2 none none none false true false,
      clauseCol c ∈ bvaCols) ∧
    (∀ c ∈ whereClauses fy1 fy2 none none none false false false,
      clauseCol c ∈ cipByDeptCols) := by
  refine ⟨?_, ?_, ?_, ?_, ?_, ?_, ?_, ?_, ?_⟩
  · rw [List.all_eq_true]
    rintro c hc
    rcases mem_whereClauses.1 hc with ⟨n, -, rfl⟩ | ⟨n, -, rfl⟩ |
      ⟨t, -, -, hfl, -⟩ | ⟨t, -, -, -, rfl⟩ | ⟨t, -, -, -, rfl⟩ <;>
      first
      | exact absurd hfl (by decide)
      | exact decide_eq_true (by simp [clauseCol])
  · rw [List.all_eq_true]
    rintro c hc
    rcases mem_whereClauses.1 hc with ⟨n, -, rfl⟩ | ⟨n, -, rfl⟩ |
      ⟨t, -, -, -, rfl⟩ | ⟨t, -, -, hfl, -⟩ | ⟨t, -, -, -, rfl⟩ <;>
      first
      | exact absurd hfl (by decide)
      | exact decide_eq_true (by simp [clauseCol])
  · rw [List.all_eq_true]
    rintro c hc
    rcases mem_whereClauses.1 hc with ⟨n, -, rfl⟩ | ⟨n, -, rfl⟩ |
      ⟨t, -, -, -, rfl⟩ | ⟨t, -, -, -, rfl⟩ | ⟨t, -, -, hfl, -⟩ <;>
      first
      | exact absurd hfl (by decide)
      | exact decide_eq_true (by simp [clauseCol])
  · exact mem_whereClauses.2 (Or.inr (Or.inr (Or.inl ⟨s, rfl, hs, rfl, rfl⟩)))
  · exact mem_whereClauses.2
      (Or.inr (Or.inr (Or.inr (Or.inl ⟨s, rfl, hs, rfl, rfl⟩))))
  · exact mem_whereClauses.2
      (Or.inr (Or.inr (Or.inr (Or.inr ⟨s, rfl, hs, rfl, rfl⟩))))
  · rintro c hc
    rcases mem_whereClauses.1 hc with ⟨n, -, rfl⟩ | ⟨n, -, rfl⟩ |
      ⟨t, -, -, -, rfl⟩ | ⟨t, hnone, -, -, -⟩ | ⟨t, -, -, -, rfl⟩ <;>
      first
      | exact absurd hnone (by simp)
      | simp [clauseCol, deptTrendCols]
  · rintro c hc
    rcases mem_whereClauses.1 hc with ⟨n, -, rfl⟩ | ⟨n, -, rfl⟩ |
      ⟨t, hnone, -, -, -⟩ | ⟨t, hnone, -, -, -⟩ | ⟨t, hnone, -, -, -⟩ <;>
      first
      | exact absurd hnone (by simp)
      | simp [clauseCol, bvaCols]
  · rintro c hc
    rcases mem_whereClauses.1 hc with ⟨n, -, rfl⟩ | ⟨n, -, rfl⟩ |
      ⟨t, hnone, -, -, -⟩ | ⟨t, hnone, -, -, -⟩ | ⟨t, hnone, -, -, -⟩ <;>
      first
      | exact absurd hnone (by simp)
      | simp [clauseCol, cipByDeptCols]

/-- Witness for C9: a truthy cycle filter is applied when declared and
generates no clause when the aggregate lacks `budget_cycle`. -/
theorem claim_C9_witness :
    Clause.cycleEq "adopted" ∈
      whereClauses (some 2024) (some 2026) (some "adopted") none none
        true true true ∧
    ((whereClauses (some 2024) (some 2026) (some "adopted") none none
        true true false).all fun c =>
      decide (clauseCol c ≠ "budget_cycle")) = true := by
  have h := claim_C9_where_skips (some 2024) (some 2026) (some "adopted")
    none none true true false "adopted" (by decide)
  exact ⟨h.2.2.2.1, h.1⟩

/-- Claim C10: `get_overview` returns `general_fund_pct = 0` whenever the
filtered expense total is zero (the Python truthiness guard, avoiding the
division), and otherwise the General Fund share of total expense times
100 rounded to one decimal place. -/
theorem claim_C10_general_fund_pct (trends : List DeptTrendRow)
    (revs : List RevenueBreakdownRow) (fa : List FundAllocationRow)
    (fy1 fy2 : Int) (cy dg : Option String) :
    (getOverview trends revs fa fy1 fy2 cy dg).general_fund_pct =
      if overviewExpenseTotal trends fy1 fy2 cy dg = 0 then 0
      else pyRound1 (overviewGFTotal fa fy1 fy2 cy /
        overviewExpenseTotal trends fy1 fy2 cy dg * 100) := by
  simp only [getOverview]
  by_cases h : overviewExpenseTotal trends fy1 fy2 cy dg = 0
  · rw [if_pos h, if_neg (by simp [h])]
    norm_num [pyRound1, roundHalfEven, Int.fract]
  · rw [if_neg h, if_pos h]

end SDBudget
